import Mathlib

/-!
# Verification of the Pater_Donate redemption-and-ledger pipeline

Shallow embedding of `src/models/Donation.js` (the `DonationService`
class together with the Mongoose `donationSchema`).  JavaScript strings
are Lean `String`s, JavaScript numbers are `ℚ` (with `Option ℚ` where a
`NaN` can arise from `parseFloat`), the heterogeneous JSON fields of the
external response are `Option JsVal`, a thrown `Error` is the `.error`
branch of `Except String` carrying the error's `message`, and the Mongo
collection backing the ledger is a `List DonationRecord`.
-/

/-- A JavaScript value that can appear in one of the probed JSON fields
of the external response. -/
inductive JsVal where
  | str (s : String)
  | num (q : ℚ)
  | bool (b : Bool)
deriving DecidableEq

/-- JavaScript truthiness for the values above: `''`, `0` and `false`
are falsy, everything else is truthy. -/
def JsVal.truthy : JsVal → Bool
  | .str s => !s.isEmpty
  | .num q => decide (q ≠ 0)
  | .bool b => b

/-- JavaScript `String(v)` as used when a non-string field ends up in an
`Error` message. -/
def JsVal.display : JsVal → String
  | .str s => s
  | .num q => toString q
  | .bool b => if b then "true" else "false"

/-- Numeric value of an ASCII digit. -/
def digitVal (c : Char) : Nat := c.toNat - '0'.toNat

/-- The natural number denoted by a list of ASCII digits
(most significant first). -/
def digitsToNat (ds : List Char) : Nat :=
  List.foldl (fun a c => a * 10 + digitVal c) 0 ds

/-- Whitespace skipped by JavaScript `parseFloat`. -/
def isJsSpace (c : Char) : Bool :=
  c == ' ' || c == '\t' || c == '\n' || c == '\r'

/-- Exponent part of a JavaScript float literal: optional sign then
digits; an exponent with no digits contributes nothing (exponent `0`),
matching `parseFloat` which stops before an incomplete exponent. -/
def parseExpVal (l : List Char) : ℤ :=
  match l with
  | '-' :: r =>
    let ds := r.takeWhile Char.isDigit
    if ds.isEmpty then 0 else -(digitsToNat ds : ℤ)
  | '+' :: r =>
    let ds := r.takeWhile Char.isDigit
    if ds.isEmpty then 0 else (digitsToNat ds : ℤ)
  | _ =>
    let ds := l.takeWhile Char.isDigit
    if ds.isEmpty then 0 else (digitsToNat ds : ℤ)

/-- JavaScript `parseFloat` on a string: skip leading whitespace, read an
optional sign, integer digits, an optional fraction and an optional
exponent, and ignore any trailing garbage; `none` is `NaN` (no digits at
all).  The denoted value `sign * digits * 10 ^ (exponent - fractionLength)`
is assembled with `mkRat` over integer arithmetic.  The special literal
`Infinity` is not modelled (no probed field of this service carries
it). -/
def parseLeadingFloat (s : String) : Option ℚ :=
  let l0 := s.toList.dropWhile isJsSpace
  let signNeg := match l0 with | '-' :: _ => true | _ => false
  let l1 := match l0 with | '-' :: r => r | '+' :: r => r | _ => l0
  let intDs := l1.takeWhile Char.isDigit
  let l2 := l1.dropWhile Char.isDigit
  let fracDs := match l2 with | '.' :: r => r.takeWhile Char.isDigit | _ => []
  let l3 := match l2 with | '.' :: r => r.dropWhile Char.isDigit | _ => l2
  if intDs.isEmpty && fracDs.isEmpty then none
  else
    let digits : Nat := digitsToNat intDs * 10 ^ fracDs.length + digitsToNat fracDs
    let signedNum : ℤ := if signNeg then -(digits : ℤ) else (digits : ℤ)
    let e : ℤ := match l3 with
      | 'e' :: r => parseExpVal r
      | 'E' :: r => parseExpVal r
      | _ => 0
    let scale : ℤ := e - (fracDs.length : ℤ)
    some (if 0 ≤ scale then mkRat (signedNum * (10 : ℤ) ^ scale.toNat) 1
          else mkRat signedNum ((10 : Nat) ^ (-scale).toNat))

/-- JavaScript `parseFloat` on any of our values: numbers pass through,
strings are parsed, booleans coerce to `"true"`/`"false"` which parse to
`NaN`. -/
def jsParseFloat : JsVal → Option ℚ
  | .num q => some q
  | .str s => parseLeadingFloat s
  | .bool _ => none

/-- JavaScript `a || b` on strings (the empty string is falsy). -/
def jsStrOr (a b : String) : String := if a.isEmpty then b else a

/-! ## Voucher Locator: `extractVoucherHash`

The source tries, in order, the regular expressions

  1. `/v=([a-zA-Z0-9]+)/`
  2. `/\/([a-zA-Z0-9]+)$/`
  3. `/gift\.truemoney\.com\/campaign\/\?v=([a-zA-Z0-9]+)/`

and returns the first capture group of the first one that matches,
throwing `Error('รูปแบบลิงก์ไม่ถูกต้อง')` when none does.  Each regex is
embedded as a scanner over the character list that tries an anchored
match at every position from the left (JavaScript's leftmost-match rule)
with the greedy semantics of `+`. -/

/-- Does `p` occur at the start of `l`?  (Anchored literal match.) -/
def startsWithList : List Char → List Char → Bool
  | [], _ => true
  | _ :: _, [] => false
  | a :: as, b :: bs => a == b && startsWithList as bs

/-- Anchored match of `/v=([a-zA-Z0-9]+)/` at the head of the list:
the literal `v=` followed by a greedy nonempty alphanumeric run. -/
def veqAt : List Char → Option (List Char)
  | a :: b :: after =>
    if a == 'v' && b == '=' then
      let run := after.takeWhile Char.isAlphanum
      if run.isEmpty then none else some run
    else none
  | _ => none

/-- Leftmost match of `/v=([a-zA-Z0-9]+)/`: try the anchored match at
every start position. -/
def scanVeq : List Char → Option (List Char)
  | [] => none
  | c :: rest =>
    match veqAt (c :: rest) with
    | some r => some r
    | none => scanVeq rest

/-- Anchored match of `/\/([a-zA-Z0-9]+)$/` at the head of the list: a
`/` whose entire remaining suffix is a nonempty alphanumeric run (the
greedy run must be followed by the end anchor, so backtracking can never
shorten it). -/
def slashAt : List Char → Option (List Char)
  | a :: rest =>
    if a == '/' && !rest.isEmpty && rest.all Char.isAlphanum then some rest else none
  | [] => none

/-- Leftmost match of `/\/([a-zA-Z0-9]+)$/`. -/
def scanSlash : List Char → Option (List Char)
  | [] => none
  | c :: rest =>
    match slashAt (c :: rest) with
    | some r => some r
    | none => scanSlash rest

/-- The literal part of the third pattern (escaped dots and `?` are
literal characters). -/
def campaignLiteral : List Char := "gift.truemoney.com/campaign/?v=".toList

/-- Anchored match of the campaign-URL pattern at the head of the list:
the literal followed by a greedy nonempty alphanumeric run. -/
def campaignAt (l : List Char) : Option (List Char) :=
  if startsWithList campaignLiteral l then
    if ((l.drop campaignLiteral.length).takeWhile Char.isAlphanum).isEmpty then none
    else some ((l.drop campaignLiteral.length).takeWhile Char.isAlphanum)
  else none

/-- Leftmost match of the campaign-URL pattern. -/
def scanCampaign : List Char → Option (List Char)
  | [] => none
  | c :: rest =>
    match campaignAt (c :: rest) with
    | some r => some r
    | none => scanCampaign rest

/-- `Error('รูปแบบลิงก์ไม่ถูกต้อง')` thrown by `extractVoucherHash`. -/
def invalidFormatMsg : String := "รูปแบบลิงก์ไม่ถูกต้อง"

/-- `DonationService.extractVoucherHash`: the patterns are tried in
order and the first capture group of the first match is returned; if no
pattern matches (in particular on the empty string) the function throws,
and the surrounding `try`/`catch` rethrows the same message. -/
def extractVoucherHash (link : String) : Except String String :=
  match scanVeq link.toList with
  | some r => .ok (String.mk r)
  | none =>
  match scanSlash link.toList with
  | some r => .ok (String.mk r)
  | none =>
  match scanCampaign link.toList with
  | some r => .ok (String.mk r)
  | none => .error invalidFormatMsg

/-- Refinement comparison for the dead-code claim: the same extraction
restricted to the first two patterns only. -/
def extractVoucherHashTwoRules (link : String) : Except String String :=
  match scanVeq link.toList with
  | some r => .ok (String.mk r)
  | none =>
  match scanSlash link.toList with
  | some r => .ok (String.mk r)
  | none => .error invalidFormatMsg

example : extractVoucherHash "https://x/campaign/?v=ABC123" = .ok "ABC123" := rfl
example : extractVoucherHash "https://gift.truemoney.com/campaign/?v=Zz9" = .ok "Zz9" := rfl
example : extractVoucherHash "http://a.b/XYZ" = .ok "XYZ" := rfl
example : extractVoucherHash "" = .error invalidFormatMsg := rfl
example : extractVoucherHash "no voucher here!" = .error invalidFormatMsg := rfl

/-! ## Redemption Client: `callTrueMoneyAPI`

The external response is not in a stable shape; the fields the source
probes are modelled explicitly.  `status` can itself be either a plain
string or an object with `code`/`message` fields. -/

/-- The `data.status` field: either a string or an object. -/
inductive StatusField where
  | str (s : String)
  | obj (code : Option JsVal) (message : Option JsVal)
deriving DecidableEq

/-- The nested `data.voucher` object. -/
structure VoucherObj where
  amount_baht : Option JsVal
  redeemed_amount_baht : Option JsVal
deriving DecidableEq

/-- The nested `data.my_ticket` object. -/
structure TicketObj where
  amount_baht : Option JsVal
deriving DecidableEq

/-- The nested `data` object of the response. -/
structure DataObj where
  voucher : Option VoucherObj
  my_ticket : Option TicketObj
deriving DecidableEq

/-- The JSON body returned by the external redemption endpoint, with
every field the source probes. -/
structure ApiResponse where
  success : Option JsVal
  status : Option StatusField
  message : Option JsVal
  error : Option JsVal
  data : Option DataObj
  amount_bath : Option JsVal
  amount : Option JsVal
  value : Option JsVal
deriving DecidableEq

/-- An all-absent response, convenient base for concrete instances. -/
def emptyResponse : ApiResponse :=
  { success := none, status := none, message := none, error := none,
    data := none, amount_bath := none, amount := none, value := none }

/-- Truthiness of an optionally-present field (`undefined` is falsy). -/
def truthyOpt : Option JsVal → Bool
  | none => false
  | some v => v.truthy

/-- The detailed success probe of the source:
`data.success === true || data.status === 'success' ||
 data.status?.code === 'SUCCESS' || data.status?.message === 'success' ||
 (data.data && data.data.voucher)`. -/
def isSuccess (r : ApiResponse) : Bool :=
  r.success == some (.bool true) ||
  (match r.status with | some (.str s) => s == "success" | _ => false) ||
  (match r.status with | some (.obj c _) => c == some (.str "SUCCESS") | _ => false) ||
  (match r.status with | some (.obj _ m) => m == some (.str "success") | _ => false) ||
  (match r.data with | some d => d.voucher.isSome | none => false)

/-- `data.status?.message` (undefined when `status` is a string or
absent). -/
def statusMessage (r : ApiResponse) : Option JsVal :=
  match r.status with
  | some (.obj _ m) => m
  | _ => none

/-- Default rejection message of the client. -/
def defaultRejectMsg : String := "ไม่สามารถแลกซองอังเปาได้"

/-- `data.message || data.error || data.status?.message || default`:
the first truthy field, coerced to a string for the `Error`. -/
def extractErrorMsg (r : ApiResponse) : String :=
  match r.message with
  | some v => if v.truthy then v.display else
    match r.error with
    | some w => if w.truthy then w.display else
      match statusMessage r with
      | some u => if u.truthy then u.display else defaultRejectMsg
      | none => defaultRejectMsg
    | none =>
      match statusMessage r with
      | some u => if u.truthy then u.display else defaultRejectMsg
      | none => defaultRejectMsg
  | none =>
    match r.error with
    | some w => if w.truthy then w.display else
      match statusMessage r with
      | some u => if u.truthy then u.display else defaultRejectMsg
      | none => defaultRejectMsg
    | none =>
      match statusMessage r with
      | some u => if u.truthy then u.display else defaultRejectMsg
      | none => defaultRejectMsg

/-- The six amount fields in the order the source probes them:
`data.data?.voucher?.amount_baht`, `data.data?.voucher?.redeemed_amount_baht`,
`data.data?.my_ticket?.amount_baht`, `data.amount_bath`, `data.amount`,
`data.value`. -/
def amountProbes (r : ApiResponse) : List (Option JsVal) :=
  [ (r.data.bind (·.voucher)).bind (·.amount_baht),
    (r.data.bind (·.voucher)).bind (·.redeemed_amount_baht),
    (r.data.bind (·.my_ticket)).bind (·.amount_baht),
    r.amount_bath,
    r.amount,
    r.value ]

/-- First truthy field in a probe list (each `if (field)` guard of the
source's `else if` chain tests JavaScript truthiness). -/
def firstTruthy : List (Option JsVal) → Option JsVal
  | [] => none
  | f :: fs =>
    match f with
    | some v => if v.truthy then some v else firstTruthy fs
    | none => firstTruthy fs

/-- The `let amount = 0; if ... else if ...` chain of the source:
`parseFloat` of the first truthy probe (`none` models the `NaN` case),
or `0` when no probe is truthy and `amount` keeps its initial value. -/
def extractedAmount (r : ApiResponse) : Option ℚ :=
  match firstTruthy (amountProbes r) with
  | some v => jsParseFloat v
  | none => some 0

/-- Observable behaviour of the single `fetch` to the external
endpoint. -/
inductive ApiOutcome where
  | timeout
  | httpError (status : Nat) (body : String)
  | networkError (msg : String)
  | ok (resp : ApiResponse)
deriving DecidableEq

/-- Successful return value of the client. -/
structure RedemptionResult where
  amount : ℚ
  data : ApiResponse
deriving DecidableEq

/-- `Error` message for a missing `TRUEMONEY_MOBILE` configuration. -/
def configErrorMsg : String := "กรุณาตั้งค่า TRUEMONEY_MOBILE ใน environment variables"

/-- `Error` message raised on an `AbortError` (the 30 s timeout). -/
def timeoutMsg : String := "การเชื่อมต่อ API หมดเวลา กรุณาลองใหม่อีกครั้ง"

/-- `Error` message for a zero, negative or unparseable amount. -/
def invalidAmountMsg : String := "ไม่พบจำนวนเงินในซองอังเปา หรือซองอังเปาไม่ถูกต้อง"

/-- The fixed call timeout of the client, in milliseconds
(`this.timeout = 30000`); the `ApiOutcome.timeout` constructor stands
for the fetch exceeding it. -/
def timeoutMs : Nat := 30000

/-- `DonationService.callTrueMoneyAPI`: fail fast when the mobile-account
environment variable is absent or empty (falsy); on an `AbortError`
throw the timeout message; on a non-2xx response throw the `API Error`
message; otherwise check the success probes, extract the amount, and
throw `invalidAmountMsg` unless it is strictly positive
(`if (!amount || amount <= 0)` — `NaN` and `0` are falsy). -/
def callTrueMoneyAPI (mobile : Option String) (outcome : ApiOutcome) :
    Except String RedemptionResult :=
  if !(match mobile with | some m => !m.isEmpty | none => false) then
    .error configErrorMsg
  else
    match outcome with
    | .timeout => .error timeoutMsg
    | .httpError st body => .error ("API Error: " ++ toString st ++ " - " ++ body)
    | .networkError msg => .error msg
    | .ok resp =>
      if !isSuccess resp then .error (extractErrorMsg resp)
      else
        match extractedAmount resp with
        | none => .error invalidAmountMsg
        | some q => if q ≤ 0 then .error invalidAmountMsg else .ok ⟨q, resp⟩

/-! ## Donation Ledger

`donationSchema` declares exactly the fields below (in strict mode, the
Mongoose default, any extra constructor argument such as the success
path's `apiResponse` or the failure path's `errorMessage` is silently
dropped and never stored).  `voucherHash` carries a unique index; the
ledger is append-only. -/

/-- The `status` enum of the schema. -/
inductive DonationStatus where
  | pending
  | completed
  | failed
deriving DecidableEq

/-- A stored donation document, one field per schema path (`timestamp`
defaults to the creation time, modelled as an abstract `Nat` clock). -/
structure DonationRecord where
  donorName : String
  amount : ℚ
  message : String
  voucherHash : String
  voucherLink : String
  ipAddress : String
  status : DonationStatus
  timestamp : Nat
deriving DecidableEq

/-- `DonationService.isDuplicateVoucher`: `Donation.findOne({ voucherHash })`
coerced to a boolean — does any stored record carry this hash? -/
def isDuplicateVoucher (ledger : List DonationRecord) (voucherHash : String) : Bool :=
  ledger.any (fun r => r.voucherHash == voucherHash)

/-! ## Redemption Pipeline: `processDonation` -/

/-- The claim submitted to the pipeline. -/
structure DonationInput where
  voucherLink : String
  donorName : String
  message : String
  ipAddress : String

/-- The payload broadcast as `new-donation` and echoed in `data`. -/
structure DonationEvent where
  donorName : String
  amount : ℚ
  message : String
  timestamp : Nat
deriving DecidableEq

/-- The structured result returned to the caller. -/
structure DonationResult where
  success : Bool
  message : String
  data : Option DonationEvent
deriving DecidableEq

/-- Environment of one pipeline run: the `TRUEMONEY_MOBILE` variable,
the behaviour of the external call if one is issued, whether
`donation.save()` on the success path rejects (`some msg` carries the
rejection's `Error` message), and the creation-time clock. -/
structure PipelineEnv where
  mobile : Option String
  outcome : ApiOutcome
  saveFault : Option String
  now : Nat

/-- Everything observable about one pipeline run: the returned result,
the ledger after the run, and whether `callTrueMoneyAPI` was invoked. -/
structure PipelineOutput where
  result : DonationResult
  ledger : List DonationRecord
  apiCalled : Bool
deriving DecidableEq

/-- `Error('ลิงก์นี้ถูกใช้งานไปแล้ว')` thrown on a duplicate voucher. -/
def duplicateMsg : String := "ลิงก์นี้ถูกใช้งานไปแล้ว"

/-- The success message
``ขอบคุณ ${donorName} สำหรับการบริจาค ${amount.toLocaleString()} บาท!``. -/
def thankYouMessage (donorName : String) (amountText : String) : String :=
  "ขอบคุณ " ++ donorName ++ " สำหรับการบริจาค " ++ amountText ++ " บาท!"

/-- Digit grouping of `Number.prototype.toLocaleString` (default locale):
walking the reversed digit list, emit a separating comma before each
digit that follows a full group of three. -/
def groupRevAux : List Char → Nat → List Char
  | [], _ => []
  | c :: rest, k =>
    if k == 3 then ',' :: c :: groupRevAux rest 1
    else c :: groupRevAux rest (k + 1)

/-- `n.toLocaleString()` for a natural number. -/
def groupedNat (n : Nat) : String :=
  String.mk ((groupRevAux ((Nat.toDigits 10 n).reverse) 0).reverse)

/-- `amount.toLocaleString()`.  The claims only exercise nonnegative
integral amounts, where the default locale prints the grouped decimal
digits; a non-integral amount is rendered (default locale: at most three
fraction digits) from the amount scaled by 1000 and rounded. -/
def jsToLocaleString (q : ℚ) : String :=
  if q.den = 1 then
    (if q.num < 0 then "-" else "") ++ groupedNat q.num.natAbs
  else
    let sign := if q < 0 then "-" else ""
    let milli : Nat := (round (|q| * 1000) : ℤ).toNat
    let ip := milli / 1000
    let fp := milli % 1000
    if fp = 0 then sign ++ groupedNat ip
    else
      let fds := (Nat.toDigits 10 fp)
      let padded := List.replicate (3 - fds.length) '0' ++ fds
      let trimmed := (padded.reverse.dropWhile (· == '0')).reverse
      sign ++ groupedNat ip ++ "." ++ String.mk trimmed

/-- The expression
`this.extractVoucherHash(voucherLink || '').catch(() => '')` evaluated
in the failure-path record construction.  `extractVoucherHash` is a
synchronous function: when it throws, the exception propagates; when it
returns, the returned `String` has no `.catch` method, so the member
call raises a `TypeError`.  Either way the expression throws. -/
def errorRecordHashExpr (voucherLink : String) : Except String String :=
  match extractVoucherHash (jsStrOr voucherLink "") with
  | .error msg => .error msg
  | .ok _ => .error "this.extractVoucherHash(...).catch is not a function"

/-- The failure-path bookkeeping block of `processDonation`: build an
`errorDonation` and `save()` it, inside a `try`/`catch` that swallows
any error.  Because `errorRecordHashExpr` always throws, the inner
`catch (saveError)` always fires and the ledger is left unchanged; the
(unreachable) successful branch is kept to mirror the intended write —
note the schema would drop the `errorMessage` argument. -/
def recordFailedAttempt (input : DonationInput) (now : Nat)
    (ledger : List DonationRecord) : List DonationRecord :=
  match errorRecordHashExpr input.voucherLink with
  | .error _ => ledger
  | .ok h =>
    ledger ++ [{ donorName := input.donorName, amount := 0,
                 message := input.message, voucherHash := h,
                 voucherLink := input.voucherLink,
                 ipAddress := input.ipAddress, status := .failed,
                 timestamp := now }]

/-- `DonationService.processDonation`: extract the hash (throw on a bad
link), throw on a duplicate, call the external client, persist the
completed record, emit the event and return the success result; any
thrown error lands in the `catch` block, which attempts the failure-path
bookkeeping and returns `{ success: false, message: error.message }`. -/
def processDonation (env : PipelineEnv) (input : DonationInput)
    (ledger : List DonationRecord) : PipelineOutput :=
  match extractVoucherHash input.voucherLink with
  | .error msg =>
    { result := ⟨false, msg, none⟩,
      ledger := recordFailedAttempt input env.now ledger,
      apiCalled := false }
  | .ok voucherHash =>
    if isDuplicateVoucher ledger voucherHash then
      { result := ⟨false, duplicateMsg, none⟩,
        ledger := recordFailedAttempt input env.now ledger,
        apiCalled := false }
    else
      match callTrueMoneyAPI env.mobile env.outcome with
      | .error msg =>
        { result := ⟨false, msg, none⟩,
          ledger := recordFailedAttempt input env.now ledger,
          apiCalled := true }
      | .ok res =>
        let donation : DonationRecord :=
          { donorName := input.donorName, amount := res.amount,
            message := input.message, voucherHash := voucherHash,
            voucherLink := input.voucherLink,
            ipAddress := input.ipAddress, status := .completed,
            timestamp := env.now }
        match env.saveFault with
        | some msg =>
          { result := ⟨false, msg, none⟩,
            ledger := recordFailedAttempt input env.now ledger,
            apiCalled := true }
        | none =>
          let event : DonationEvent :=
            ⟨donation.donorName, donation.amount, donation.message,
             donation.timestamp⟩
          { result := ⟨true,
              thankYouMessage input.donorName (jsToLocaleString res.amount),
              some event⟩,
            ledger := ledger ++ [donation],
            apiCalled := true }

/-! ## Ledger reads: `getRecentDonations` and `getDonationStats` -/

/-- Projection selected by
`.select('donorName amount message timestamp -_id')`. -/
structure RecentDonationView where
  donorName : String
  amount : ℚ
  message : String
  timestamp : Nat
deriving DecidableEq

/-- Insert one record into a list kept newest-first by `timestamp`. -/
def insertDesc (r : DonationRecord) : List DonationRecord → List DonationRecord
  | [] => [r]
  | x :: xs => if r.timestamp ≤ x.timestamp then x :: insertDesc r xs
               else r :: x :: xs

/-- `.sort({ timestamp: -1 })`: newest first. -/
def sortByTimestampDesc (l : List DonationRecord) : List DonationRecord :=
  l.foldr insertDesc []

/-- `DonationService.getRecentDonations`: query the completed records,
newest first, bounded by `limit`, projected; the surrounding
`try`/`catch` converts any read fault into the empty list. -/
def getRecentDonations (limit : Nat)
    (read : Except String (List DonationRecord)) : List RecentDonationView :=
  match read with
  | .error _ => []
  | .ok records =>
    (((sortByTimestampDesc (records.filter
        (fun r => r.status == DonationStatus.completed))).take limit).map
      (fun r => ⟨r.donorName, r.amount, r.message, r.timestamp⟩))

/-- The aggregate stats object. -/
structure AggregateStats where
  totalAmount : ℚ
  totalDonations : Nat
  averageAmount : ℚ
  topDonation : ℚ
  lastDonation : Option Nat
deriving DecidableEq

/-- The fallback object `stats[0] || { ...zeroes..., lastDonation: null }`. -/
def zeroStats : AggregateStats :=
  { totalAmount := 0, totalDonations := 0, averageAmount := 0,
    topDonation := 0, lastDonation := none }

/-- Maximum of a nonempty list of rationals (`$max`). -/
def maxQ : List ℚ → ℚ
  | [] => 0
  | a :: rest => rest.foldl max a

/-- Maximum of a nonempty list of timestamps (`$max`). -/
def maxNat : List Nat → Nat
  | [] => 0
  | a :: rest => rest.foldl max a

/-- `DonationService.getDonationStats`: the `$match`/`$group` aggregation
over completed records; with no matching document the aggregation yields
no group and the zero object is returned, and any read fault is caught
and also yields the zero object. -/
def getDonationStats (read : Except String (List DonationRecord)) : AggregateStats :=
  match read with
  | .error _ => zeroStats
  | .ok records =>
    match records.filter (fun r => r.status == DonationStatus.completed) with
    | [] => zeroStats
    | c :: cs =>
      let completed := c :: cs
      let amounts := completed.map (·.amount)
      let total := amounts.sum
      { totalAmount := total,
        totalDonations := completed.length,
        averageAmount := total / (completed.length : ℚ),
        topDonation := maxQ amounts,
        lastDonation := some (maxNat (completed.map (·.timestamp))) }

/-! ## Helper: substring containment (for the message claims) -/

/-- Does `needle` occur (contiguously) in the list? -/
def listContainsSub (needle : List Char) : List Char → Bool
  | [] => needle.isEmpty
  | c :: t => startsWithList needle (c :: t) || listContainsSub needle t

/-- Does `needle` occur in `hay`? -/
def strContains (hay needle : String) : Bool :=
  listContainsSub needle.toList hay.toList

/-! ## Concrete scenario data -/

/-- The external response of the success scenario:
`{ success: true, data: { voucher: { amount_baht: "50" } } }`. -/
def c1Resp : ApiResponse :=
  { emptyResponse with
    success := some (.bool true),
    data := some { voucher := some { amount_baht := some (.str "50"),
                                     redeemed_amount_baht := none },
                   my_ticket := none } }

/-- Environment of the success scenario: configured mobile account, the
response above, no persistence fault. -/
def c1Env : PipelineEnv :=
  { mobile := some "0812345678", outcome := .ok c1Resp, saveFault := none, now := 7 }

/-- The claim of the success scenario: link
`https://x/campaign/?v=ABC123`, donor `"Alice"`. -/
def c1Input : DonationInput :=
  { voucherLink := "https://x/campaign/?v=ABC123", donorName := "Alice",
    message := "", ipAddress := "1.2.3.4" }


/-- C1: on the success scenario (`?v=ABC123`, donor "Alice", external
response `{ success: true, data: { voucher: { amount_baht: "50" } } }`,
voucher not previously redeemed) `processDonation` returns success with
a message containing both "Alice" and "50", and exactly one `completed`
record with `amount = 50` is inserted into the ledger. -/
theorem claim_C1 :
    (processDonation c1Env c1Input []).result.success = true ∧
    strContains (processDonation c1Env c1Input []).result.message "Alice" = true ∧
    strContains (processDonation c1Env c1Input []).result.message "50" = true ∧
    (processDonation c1Env c1Input []).ledger =
      [{ donorName := "Alice", amount := 50, message := "",
         voucherHash := "ABC123",
         voucherLink := "https://x/campaign/?v=ABC123",
         ipAddress := "1.2.3.4", status := .completed, timestamp := 7 }] ∧
    ((processDonation c1Env c1Input []).ledger.filter
        (fun r => r.status == DonationStatus.completed && r.amount == 50)).length = 1 := by
  exact ⟨by decide, by decide, by decide, by decide, by decide⟩

/-- The failure-path hash expression always throws: either the
re-extraction itself throws, or `.catch` is called on a `String`. -/
theorem errorRecordHashExpr_isError (voucherLink : String) :
    ∃ msg, errorRecordHashExpr voucherLink = .error msg := by
  unfold errorRecordHashExpr
  cases extractVoucherHash (jsStrOr voucherLink "") <;> exact ⟨_, rfl⟩

/-- Consequently the failure-path bookkeeping never changes the ledger:
the inner `catch (saveError)` always fires before `save()` is reached. -/
theorem recordFailedAttempt_eq (input : DonationInput) (now : Nat)
    (ledger : List DonationRecord) :
    recordFailedAttempt input now ledger = ledger := by
  obtain ⟨msg, h⟩ := errorRecordHashExpr_isError input.voucherLink
  unfold recordFailedAttempt
  rw [h]

/-- C2: when the extracted hash of the submitted link already has a
record in the ledger, `processDonation` returns the failed result with
the duplicate message, changes nothing, and never issues the external
call; and a second submission of the very same `voucherLink` after a
successful one always yields the duplicate failure, so the same link
completes at most once. -/
theorem claim_C2 (env env' : PipelineEnv) (input : DonationInput)
    (ledger : List DonationRecord) (hash : String) :
    (extractVoucherHash input.voucherLink = .ok hash →
      isDuplicateVoucher ledger hash = true →
      processDonation env input ledger =
        ⟨⟨false, duplicateMsg, none⟩, ledger, false⟩) ∧
    ((processDonation env input ledger).result.success = true →
      (processDonation env' input (processDonation env input ledger).ledger).result.success = false ∧
      (processDonation env' input (processDonation env input ledger).ledger).result.message = duplicateMsg ∧
      (processDonation env' input (processDonation env input ledger).ledger).apiCalled = false) := by
  constructor
  · intro h1 h2
    simp [processDonation, h1, h2, recordFailedAttempt_eq]
  · intro hs
    cases hE : extractVoucherHash input.voucherLink with
    | error msg => simp [processDonation, hE] at hs
    | ok hash' =>
      cases hdup : isDuplicateVoucher ledger hash' with
      | true => simp [processDonation, hE, hdup] at hs
      | false =>
        cases hapi : callTrueMoneyAPI env.mobile env.outcome with
        | error msg => simp [processDonation, hE, hdup, hapi] at hs
        | ok res =>
          cases hsf : env.saveFault with
          | some msg => simp [processDonation, hE, hdup, hapi, hsf] at hs
          | none =>
            have hledger : (processDonation env input ledger).ledger =
                ledger ++ [{ donorName := input.donorName, amount := res.amount,
                             message := input.message, voucherHash := hash',
                             voucherLink := input.voucherLink,
                             ipAddress := input.ipAddress, status := .completed,
                             timestamp := env.now }] := by
              simp [processDonation, hE, hdup, hapi, hsf]
            rw [hledger]
            have hdup2 : isDuplicateVoucher
                (ledger ++ [{ donorName := input.donorName, amount := res.amount,
                              message := input.message, voucherHash := hash',
                              voucherLink := input.voucherLink,
                              ipAddress := input.ipAddress, status := .completed,
                              timestamp := env.now }]) hash' = true := by
              simp [isDuplicateVoucher]
            simp [processDonation, hE, hdup2, recordFailedAttempt_eq]

/-- Witness for C2 at a concrete input: the hash `ABC123` is already in
the ledger, so the attempt fails with the duplicate message and no
external call. -/
theorem claim_C2_witness :
    processDonation c1Env c1Input
      [{ donorName := "Bob", amount := 50, message := "",
         voucherHash := "ABC123", voucherLink := "x/ABC123",
         ipAddress := "5.6.7.8", status := .completed, timestamp := 1 }] =
      ⟨⟨false, duplicateMsg, none⟩,
       [{ donorName := "Bob", amount := 50, message := "",
          voucherHash := "ABC123", voucherLink := "x/ABC123",
          ipAddress := "5.6.7.8", status := .completed, timestamp := 1 }],
       false⟩ :=
  (claim_C2 c1Env c1Env c1Input
      [{ donorName := "Bob", amount := 50, message := "",
         voucherHash := "ABC123", voucherLink := "x/ABC123",
         ipAddress := "5.6.7.8", status := .completed, timestamp := 1 }]
      "ABC123").1 rfl (by decide)

/-! ## Locator lemmas -/

/-- A successful anchored `v=` match captures a nonempty alphanumeric
run. -/
theorem veqAt_ok {l r : List Char} (h : veqAt l = some r) :
    r ≠ [] ∧ r.all Char.isAlphanum = true := by
  match l with
  | [] => simp [veqAt] at h
  | [a] => simp [veqAt] at h
  | a :: b :: after =>
    simp only [veqAt] at h
    split at h
    · split at h
      · exact Option.noConfusion h
      · rename_i hrun
        obtain rfl := Option.some.inj h
        refine ⟨?_, List.all_takeWhile⟩
        simpa using hrun
    · exact Option.noConfusion h

/-- A successful anchored trailing-segment match captures a nonempty
alphanumeric run. -/
theorem slashAt_ok {l r : List Char} (h : slashAt l = some r) :
    r ≠ [] ∧ r.all Char.isAlphanum = true := by
  match l with
  | [] => simp [slashAt] at h
  | a :: rest =>
    simp only [slashAt] at h
    split at h
    · rename_i hc
      obtain rfl := Option.some.inj h
      simp only [Bool.and_eq_true, Bool.not_eq_true'] at hc
      refine ⟨?_, hc.2⟩
      simpa using hc.1.2
    · exact Option.noConfusion h

/-- A successful anchored campaign-URL match captures a nonempty
alphanumeric run. -/
theorem campaignAt_ok {l r : List Char} (h : campaignAt l = some r) :
    r ≠ [] ∧ r.all Char.isAlphanum = true := by
  unfold campaignAt at h
  split at h
  · split at h
    · exact Option.noConfusion h
    · rename_i hrun
      obtain rfl := Option.some.inj h
      refine ⟨?_, List.all_takeWhile⟩
      simpa using hrun
  · exact Option.noConfusion h

/-- Any capture of the leftmost `v=` scan is a nonempty alphanumeric
run. -/
theorem scanVeq_ok : ∀ l r, scanVeq l = some r →
    r ≠ [] ∧ r.all Char.isAlphanum = true := by
  intro l
  induction l with
  | nil => intro r h; simp [scanVeq] at h
  | cons c rest ih =>
    intro r h
    simp only [scanVeq] at h
    cases hv : veqAt (c :: rest) with
    | some r' => rw [hv] at h; exact Option.some.inj h ▸ veqAt_ok hv
    | none => rw [hv] at h; exact ih r h

/-- Any capture of the leftmost trailing-segment scan is a nonempty
alphanumeric run. -/
theorem scanSlash_ok : ∀ l r, scanSlash l = some r →
    r ≠ [] ∧ r.all Char.isAlphanum = true := by
  intro l
  induction l with
  | nil => intro r h; simp [scanSlash] at h
  | cons c rest ih =>
    intro r h
    simp only [scanSlash] at h
    cases hv : slashAt (c :: rest) with
    | some r' => rw [hv] at h; exact Option.some.inj h ▸ slashAt_ok hv
    | none => rw [hv] at h; exact ih r h

/-- Any capture of the leftmost campaign-URL scan is a nonempty
alphanumeric run. -/
theorem scanCampaign_ok : ∀ l r, scanCampaign l = some r →
    r ≠ [] ∧ r.all Char.isAlphanum = true := by
  intro l
  induction l with
  | nil => intro r h; simp [scanCampaign] at h
  | cons c rest ih =>
    intro r h
    simp only [scanCampaign] at h
    cases hv : campaignAt (c :: rest) with
    | some r' => rw [hv] at h; exact Option.some.inj h ▸ campaignAt_ok hv
    | none => rw [hv] at h; exact ih r h

/-- C3: the extraction returns the capture of the first matching rule —
rule 1 wins outright, rule 2 fires only when rule 1 fails, rule 3 only
when both fail — and on every other string (the empty string among them)
it fails with the invalid-format error; every returned hash is a
nonempty alphanumeric group, and the function is pure (equal inputs give
equal outcomes). -/
theorem claim_C3 (s : String) :
    (∀ r, scanVeq s.toList = some r →
        extractVoucherHash s = .ok (String.mk r)) ∧
    (∀ r, scanVeq s.toList = none → scanSlash s.toList = some r →
        extractVoucherHash s = .ok (String.mk r)) ∧
    (∀ r, scanVeq s.toList = none → scanSlash s.toList = none →
        scanCampaign s.toList = some r →
        extractVoucherHash s = .ok (String.mk r)) ∧
    (scanVeq s.toList = none → scanSlash s.toList = none →
        scanCampaign s.toList = none →
        extractVoucherHash s = .error invalidFormatMsg) ∧
    (∀ h, extractVoucherHash s = .ok h →
        h ≠ "" ∧ h.toList.all Char.isAlphanum = true) ∧
    (∀ t, s = t → extractVoucherHash s = extractVoucherHash t) ∧
    extractVoucherHash "" = .error invalidFormatMsg := by
  refine ⟨?_, ?_, ?_, ?_, ?_, ?_, rfl⟩
  · intro r h1
    unfold extractVoucherHash
    rw [h1]
  · intro r h1 h2
    unfold extractVoucherHash
    rw [h1, h2]
  · intro r h1 h2 h3
    unfold extractVoucherHash
    rw [h1, h2, h3]
  · intro h1 h2 h3
    unfold extractVoucherHash
    rw [h1, h2, h3]
  · intro h hok
    unfold extractVoucherHash at hok
    cases h1 : scanVeq s.toList with
    | some r =>
      rw [h1] at hok
      obtain rfl := Except.ok.inj hok
      obtain ⟨hne, hall⟩ := scanVeq_ok _ _ h1
      exact ⟨fun hc => hne (congrArg String.data hc), hall⟩
    | none =>
      rw [h1] at hok
      cases h2 : scanSlash s.toList with
      | some r =>
        rw [h2] at hok
        obtain rfl := Except.ok.inj hok
        obtain ⟨hne, hall⟩ := scanSlash_ok _ _ h2
        exact ⟨fun hc => hne (congrArg String.data hc), hall⟩
      | none =>
        rw [h2] at hok
        cases h3 : scanCampaign s.toList with
        | some r =>
          rw [h3] at hok
          obtain rfl := Except.ok.inj hok
          obtain ⟨hne, hall⟩ := scanCampaign_ok _ _ h3
          exact ⟨fun hc => hne (congrArg String.data hc), hall⟩
        | none => rw [h3] at hok; exact Except.noConfusion hok
  · intro t ht; rw [ht]

/-- Witness for C3 at a concrete input: rule 1 matches
`https://x/campaign/?v=ABC123` and the capture `ABC123` is returned. -/
theorem claim_C3_witness :
    extractVoucherHash "https://x/campaign/?v=ABC123" =
      .ok (String.mk ['A', 'B', 'C', '1', '2', '3']) :=
  (claim_C3 "https://x/campaign/?v=ABC123").1
    ['A', 'B', 'C', '1', '2', '3'] (by decide)

/-- A successful anchored literal match decomposes the list. -/
theorem startsWithList_decomp : ∀ p l : List Char,
    startsWithList p l = true → l = p ++ l.drop p.length := by
  intro p
  induction p with
  | nil => intro l _; simp
  | cons a as ih =>
    intro l h
    cases l with
    | nil => simp [startsWithList] at h
    | cons b bs =>
      simp only [startsWithList, Bool.and_eq_true, beq_iff_eq] at h
      obtain ⟨rfl, h2⟩ := h
      simpa using ih bs h2

/-- A nonempty `takeWhile` forces a head satisfying the predicate. -/
theorem takeWhile_head_of_ne {p : Char → Bool} {xs : List Char}
    (h : (xs.takeWhile p).isEmpty = false) :
    ∃ c t, xs = c :: t ∧ p c = true := by
  cases xs with
  | nil => simp [List.takeWhile] at h
  | cons c t =>
    by_cases hp : p c = true
    · exact ⟨c, t, rfl, hp⟩
    · rw [List.takeWhile_cons_of_neg (by simpa using hp)] at h
      simp at h

/-- Scanning one position further to the right can only move a hit
earlier, never lose it. -/
theorem scanVeq_cons_isSome (c : Char) (rest : List Char)
    (h : (scanVeq rest).isSome = true) :
    (scanVeq (c :: rest)).isSome = true := by
  simp only [scanVeq]
  cases hv : veqAt (c :: rest) with
  | some r => rfl
  | none => exact h

/-- Any list containing `v=` followed by an alphanumeric character has a
`v=` scan hit. -/
theorem scanVeq_isSome_of_veq (pre : List Char) (h : Char)
    (rest : List Char) (hh : h.isAlphanum = true) :
    (scanVeq (pre ++ 'v' :: '=' :: h :: rest)).isSome = true := by
  induction pre with
  | nil =>
    simp only [List.nil_append, scanVeq]
    have hv : veqAt ('v' :: '=' :: h :: rest) =
        some (h :: List.takeWhile Char.isAlphanum rest) := by
      simp [veqAt, List.takeWhile_cons_of_pos hh]
    rw [hv]
    rfl
  | cons c pre ih =>
    rw [List.cons_append]
    exact scanVeq_cons_isSome _ _ ih

/-- An anchored campaign-URL hit at the head of a list implies a `v=`
scan hit on the same list: the campaign literal itself ends in `v=`
followed by the captured alphanumeric run. -/
theorem campaignAt_some_imp_scanVeq {l r : List Char}
    (h : campaignAt l = some r) : (scanVeq l).isSome = true := by
  unfold campaignAt at h
  split at h
  · rename_i hsw
    split at h
    · exact Option.noConfusion h
    · rename_i hrun
      obtain ⟨hc, t, hdrop, halnum⟩ :=
        takeWhile_head_of_ne (Bool.eq_false_iff.mpr hrun)
      have hl : l = campaignLiteral ++ l.drop campaignLiteral.length :=
        startsWithList_decomp _ _ hsw
      rw [hdrop] at hl
      have hsplit : campaignLiteral =
          "gift.truemoney.com/campaign/?".toList ++ ['v', '='] := rfl
      rw [hsplit, List.append_assoc] at hl
      rw [hl]
      exact scanVeq_isSome_of_veq _ _ _ halnum
  · exact Option.noConfusion h

/-- Any campaign-URL scan hit implies a `v=` scan hit. -/
theorem scanCampaign_imp_scanVeq : ∀ l r : List Char,
    scanCampaign l = some r → (scanVeq l).isSome = true := by
  intro l
  induction l with
  | nil => intro r h; simp [scanCampaign] at h
  | cons c rest ih =>
    intro r h
    simp only [scanCampaign] at h
    cases hc : campaignAt (c :: rest) with
    | some r' => exact campaignAt_some_imp_scanVeq hc
    | none => rw [hc] at h; exact scanVeq_cons_isSome c rest (ih r h)

/-- C10: the third locator pattern is dead code — extraction over the
three ordered patterns agrees with extraction over the first two on
every string, because any string the campaign-URL pattern matches is
already matched by the `v=` pattern, which is tried first. -/
theorem claim_C10 (link : String) :
    extractVoucherHash link = extractVoucherHashTwoRules link := by
  unfold extractVoucherHash extractVoucherHashTwoRules
  cases h1 : scanVeq link.toList with
  | some r => rfl
  | none =>
    cases h2 : scanSlash link.toList with
    | some r => rfl
    | none =>
      cases h3 : scanCampaign link.toList with
      | some r =>
        exfalso
        have hs := scanCampaign_imp_scanVeq _ _ h3
        rw [h1] at hs
        exact Bool.noConfusion hs
      | none => rfl

/-- The probe chain selects exactly the first truthy entry. -/
theorem firstTruthy_spec : ∀ (l : List (Option JsVal)) (i : Nat) (v : JsVal),
    l[i]? = some (some v) → v.truthy = true →
    (∀ j, j < i → truthyOpt (l[j]?.getD none) = false) →
    firstTruthy l = some v := by
  intro l
  induction l with
  | nil => intro i v h1 _ _; simp at h1
  | cons f fs ih =>
    intro i v h1 h2 h3
    cases i with
    | zero =>
      simp only [List.getElem?_cons_zero] at h1
      obtain rfl := Option.some.inj h1
      simp [firstTruthy, h2]
    | succ i =>
      have hf : truthyOpt f = false := by
        have := h3 0 (Nat.succ_pos i)
        simpa using this
      simp only [List.getElem?_cons_succ] at h1
      have htail : firstTruthy fs = some v := by
        apply ih i v h1 h2
        intro j hj
        have := h3 (j + 1) (Nat.succ_lt_succ hj)
        simpa using this
      cases f with
      | none => simpa [firstTruthy] using htail
      | some w =>
        have hw : w.truthy = false := by simpa [truthyOpt] using hf
        simpa [firstTruthy, hw] using htail

/-- A response whose nested voucher amount is present but falsy (the
number `0`) while the top-level `amount` is `30`. -/
def c4Resp : ApiResponse :=
  { emptyResponse with
    success := some (.bool true),
    data := some { voucher := some { amount_baht := some (.num 0),
                                     redeemed_amount_baht := none },
                   my_ticket := none },
    amount := some (.num 30) }

/-- C4 as stated is false on the code: the guards of the probe chain
test JavaScript truthiness, not presence, so a present nested voucher
amount of `0` is skipped and the top-level `amount` (30, a different
value) wins instead of the nested field. -/
theorem claim_C4_counterexample :
    (c4Resp.data.bind (·.voucher)).bind (·.amount_baht) = some (.num 0) ∧
    c4Resp.amount = some (.num 30) ∧
    jsParseFloat (.num 30) ≠ jsParseFloat (.num 0) ∧
    extractedAmount c4Resp = some 30 ∧
    extractedAmount c4Resp ≠ jsParseFloat (.num 0) := by
  refine ⟨by decide, by decide, by decide, by decide, by decide⟩

/-- C4 (amended): the extracted amount is `parseFloat` of the first
*truthy* probe in the order nested voucher amount, nested voucher
redeemed amount, nested ticket amount, top-level misspelled amount,
top-level amount, top-level value; in particular a truthy nested voucher
amount always wins, whatever the other fields hold. -/
theorem claim_C4 (r : ApiResponse) :
    (∀ v, (r.data.bind (·.voucher)).bind (·.amount_baht) = some v →
        v.truthy = true → extractedAmount r = jsParseFloat v) ∧
    (∀ (i : Nat) (v : JsVal),
        (amountProbes r)[i]? = some (some v) → v.truthy = true →
        (∀ j, j < i → truthyOpt ((amountProbes r)[j]?.getD none) = false) →
        extractedAmount r = jsParseFloat v) := by
  constructor
  · intro v hv ht
    unfold extractedAmount
    rw [firstTruthy_spec (amountProbes r) 0 v (by simpa [amountProbes] using hv) ht
      (fun j hj => absurd hj (Nat.not_lt_zero j))]
  · intro i v h1 h2 h3
    unfold extractedAmount
    rw [firstTruthy_spec (amountProbes r) i v h1 h2 h3]

/-- A response carrying both the nested voucher amount `"50"` (truthy)
and a top-level `amount` of `30`. -/
def c4wResp : ApiResponse :=
  { emptyResponse with
    success := some (.bool true),
    data := some { voucher := some { amount_baht := some (.str "50"),
                                     redeemed_amount_baht := none },
                   my_ticket := none },
    amount := some (.num 30) }

/-- Witness for C4 (amended) at a concrete response: the truthy nested
voucher amount `"50"` wins over the top-level `amount` 30. -/
theorem claim_C4_witness :
    extractedAmount c4wResp = jsParseFloat (.str "50") :=
  (claim_C4 c4wResp).1 (.str "50") (by decide) (by decide)

/-- C5: with a configured account, a response whose extracted amount is
unparseable (`NaN`), zero or negative makes the client fail with
`invalidAmountMsg` even when the response's explicit success flag (or
any other success probe) says success; and any successful
`RedemptionResult`, under any outcome, carries a strictly positive
amount. -/
theorem claim_C5 (mobile : Option String) (r : ApiResponse) (outcome : ApiOutcome) :
    ((match mobile with | some m => !m.isEmpty | none => false) = true →
      isSuccess r = true →
      (extractedAmount r = none ∨ ∃ q, extractedAmount r = some q ∧ q ≤ 0) →
      callTrueMoneyAPI mobile (.ok r) = .error invalidAmountMsg) ∧
    (∀ res, callTrueMoneyAPI mobile outcome = .ok res → 0 < res.amount) := by
  constructor
  · intro hm hs hz
    rcases hz with hn | ⟨q, hq, hle⟩
    · simp [callTrueMoneyAPI, hm, hs, hn]
    · simp [callTrueMoneyAPI, hm, hs, hq, hle]
  · intro res hres
    unfold callTrueMoneyAPI at hres
    split at hres
    · exact Except.noConfusion hres
    · split at hres
      · exact Except.noConfusion hres
      · exact Except.noConfusion hres
      · exact Except.noConfusion hres
      · split at hres
        · exact Except.noConfusion hres
        · split at hres
          · exact Except.noConfusion hres
          · split at hres
            · exact Except.noConfusion hres
            · rename_i hq
              obtain rfl := Except.ok.inj hres
              exact lt_of_not_le hq

/-- A response that reports success (`success: true`) but whose voucher
amount is the string `"0"` (truthy, parsing to zero). -/
def c5Resp : ApiResponse :=
  { emptyResponse with
    success := some (.bool true),
    data := some { voucher := some { amount_baht := some (.str "0"),
                                     redeemed_amount_baht := none },
                   my_ticket := none } }

/-- Witness for C5 at a concrete response: explicit success flag, zero
extracted amount, `invalidAmountMsg` failure. -/
theorem claim_C5_witness :
    callTrueMoneyAPI (some "0812345678") (.ok c5Resp) = .error invalidAmountMsg :=
  (claim_C5 (some "0812345678") c5Resp (.ok c5Resp)).1 (by decide) (by decide)
    (Or.inr ⟨0, by decide, by decide⟩)

/-- C6: `getDonationStats` over zero completed records gives the
all-zero stats object with no last-donation timestamp, and a faulted
read also degrades to the same zero object rather than propagating. -/
theorem claim_C6 (read : Except String (List DonationRecord)) :
    (∀ l, read = .ok l →
      l.filter (fun r => r.status == DonationStatus.completed) = [] →
      getDonationStats read = zeroStats) ∧
    (∀ e, read = .error e → getDonationStats read = zeroStats) ∧
    zeroStats.totalAmount = 0 ∧ zeroStats.totalDonations = 0 ∧
    zeroStats.averageAmount = 0 ∧ zeroStats.topDonation = 0 ∧
    zeroStats.lastDonation = none := by
  refine ⟨?_, ?_, rfl, rfl, rfl, rfl, rfl⟩
  · rintro l rfl hf
    simp [getDonationStats, hf]
  · rintro e rfl
    simp [getDonationStats]

/-- A single `failed` record, used as a store with no completed
records. -/
def c6FailedRecord : DonationRecord :=
  { donorName := "Bob", amount := 0, message := "", voucherHash := "H1",
    voucherLink := "x/H1", ipAddress := "8.8.8.8", status := .failed,
    timestamp := 3 }

/-- Witness for C6 at a concrete store: one `failed` record, no
completed ones — the zero object comes back. -/
theorem claim_C6_witness :
    getDonationStats (.ok [c6FailedRecord]) = zeroStats :=
  (claim_C6 (.ok [c6FailedRecord])).1 [c6FailedRecord] rfl (by decide)

/-- Environment in which the external call times out. -/
def c7Env : PipelineEnv :=
  { mobile := some "0812345678", outcome := .timeout, saveFault := none, now := 9 }

/-- A well-formed claim whose redemption will time out. -/
def c7Input : DonationInput :=
  { voucherLink := "https://gift.truemoney.com/campaign/?v=TM99",
    donorName := "Carol", message := "", ipAddress := "9.9.9.9" }

/-- C7 fails on the code (code bug): on a timeout the pipeline does
return the failed result with the timeout message, but NO `failed`
record is written — the failure-path record construction calls `.catch`
on the synchronous string result of `extractVoucherHash`, the resulting
`TypeError` is swallowed by the inner `catch`, and the ledger stays
empty (the schema also has no `errorMessage` path to store). -/
theorem claim_C7_code_bug :
    (processDonation c7Env c7Input []).result.success = false ∧
    (processDonation c7Env c7Input []).result.message = timeoutMsg ∧
    (processDonation c7Env c7Input []).ledger = [] ∧
    errorRecordHashExpr c7Input.voucherLink =
      .error "this.extractVoucherHash(...).catch is not a function" :=
  ⟨rfl, rfl, rfl, rfl⟩

/-- Environment in which redemption succeeds but the ledger write
rejects. -/
def c8Env : PipelineEnv :=
  { mobile := some "0812345678", outcome := .ok c1Resp,
    saveFault := some "database unavailable", now := 4 }

/-- C8 as stated is false on the code: when the completed-record
`save()` rejects, the rejection is caught by the OUTER catch, so the
donor receives a failed result even though the redemption itself
succeeded — the success-path persistence failure is not swallowed. -/
theorem claim_C8_counterexample :
    callTrueMoneyAPI c8Env.mobile c8Env.outcome = .ok ⟨50, c1Resp⟩ ∧
    (processDonation c8Env c1Input []).result.success = false ∧
    (processDonation c8Env c1Input []).result.message = "database unavailable" :=
  ⟨rfl, rfl, rfl⟩

/-- C8 (amended): the pipeline always returns a structured result; a
persistence failure on the SUCCESS path is caught and converted into a
failed result carrying the write error's message (not a success, and
not an uncaught fault); the failure-path bookkeeping write never
changes the ledger; and every failed outcome leaves the ledger exactly
as it was. -/
theorem claim_C8 (env : PipelineEnv) (input : DonationInput)
    (ledger : List DonationRecord) (hash : String) :
    (∀ msg res, extractVoucherHash input.voucherLink = .ok hash →
      isDuplicateVoucher ledger hash = false →
      callTrueMoneyAPI env.mobile env.outcome = .ok res →
      env.saveFault = some msg →
      processDonation env input ledger = ⟨⟨false, msg, none⟩, ledger, true⟩) ∧
    (recordFailedAttempt input env.now ledger = ledger) ∧
    ((processDonation env input ledger).result.success = false →
      (processDonation env input ledger).ledger = ledger) := by
  refine ⟨?_, recordFailedAttempt_eq _ _ _, ?_⟩
  · intro msg res hE hd hapi hsf
    simp [processDonation, hE, hd, hapi, hsf, recordFailedAttempt_eq]
  · intro hs
    cases hE : extractVoucherHash input.voucherLink with
    | error m => simp [processDonation, hE, recordFailedAttempt_eq]
    | ok h' =>
      cases hd : isDuplicateVoucher ledger h' with
      | true => simp [processDonation, hE, hd, recordFailedAttempt_eq]
      | false =>
        cases hapi : callTrueMoneyAPI env.mobile env.outcome with
        | error m => simp [processDonation, hE, hd, hapi, recordFailedAttempt_eq]
        | ok res =>
          cases hsf : env.saveFault with
          | some m => simp [processDonation, hE, hd, hapi, hsf, recordFailedAttempt_eq]
          | none => simp [processDonation, hE, hd, hapi, hsf] at hs

/-- Witness for C8 (amended) at a concrete run: ledger write rejects
with "database unavailable", donor receives that failure, ledger
untouched, external call made. -/
theorem claim_C8_witness :
    processDonation c8Env c1Input [] =
      ⟨⟨false, "database unavailable", none⟩, [], true⟩ :=
  (claim_C8 c8Env c1Input [] "ABC123").1 "database unavailable" ⟨50, c1Resp⟩
    rfl (by decide) rfl rfl

/-- C9: for every limit, a faulted store read makes
`getRecentDonations` return the empty list instead of propagating the
fault. -/
theorem claim_C9 (limit : Nat) (e : String) :
    getRecentDonations limit (.error e) = [] := rfl
